import Mathlib

/-!
# Verification of the N-HITS revenue forecasting worker

Shallow embedding of `src/scripts/nhits_forecast.py`: the record
normalizer (`prepare_data`), the three-tier fallback forecaster
(`forecast`), and the stdin/stdout protocol adapter (`__main__`,
embedded as `runMain`).

Modelling conventions:
* A Python float that may be NaN or infinite is `Option ℚ`
  (`none` = non-finite); finite values are exact rationals.
* A raw JSON record is a `Record`: its `date` field is either
  parseable (`DateField.valid`, keyed by an integer day ordinal used
  only for sorting) or unparseable (`DateField.malformed`, e.g.
  "2024-13-40"); its `revenue` field is a number (`RevField.num`),
  a numeric string (`RevField.numStr`, accepted by `astype(float)`
  but rejected by `0 + str` in the last-resort `sum`), a non-numeric
  string (`RevField.badStr`, rejected by both), or absent
  (`RevField.missing`, which pandas turns into NaN).
* The neural library call (NHITS construction, `nf.fit`, `nf.predict`)
  is opaque: it is passed in as an `oracle : Option (List RawVal)`,
  where `none` means the call raised and `some raw` means it returned
  the raw prediction column `forecast_df["NHITS"].values.tolist()`.
  The library contract (a model built with `h = horizon` predicts
  exactly `horizon` rows) is the hypothesis `OracleOK`.
* Exceptions escaping a Python function are `Except PyErr`.
-/

/-- The date field of a raw record: either parseable by
`pd.to_datetime` (abstracted to an integer ordinal, used only for
ordering) or malformed so that parsing raises. -/
inductive DateField
  | valid (ord : Int)
  | malformed
  deriving DecidableEq

/-- The revenue field of a raw record. `num` is a JSON number;
`numStr` is a numeric string (so `astype(float)` succeeds on it but
`0 + s` in the raw-mean fallback raises TypeError); `badStr` is a
non-numeric string (both coercions fail); `missing` means the key is
absent (pandas fills NaN, and `d.get("revenue", 0)` yields 0). -/
inductive RevField
  | num (v : ℚ)
  | numStr (v : ℚ)
  | badStr
  | missing
  deriving DecidableEq

/-- One raw input record, an element of `historical_data`. -/
structure Record where
  date : DateField
  revenue : RevField
  deriving DecidableEq

/-- One row of the normalized dataframe returned by `prepare_data`:
`ds` is the parsed date, `y` the coerced revenue (`none` = NaN from a
missing revenue field). -/
structure NormObs where
  ds : Int
  y : Option ℚ
  deriving DecidableEq

/-- pd.to_datetime on a single date field: raises on a malformed date. -/
def parseDate : DateField → Option Int
  | .valid d => some d
  | .malformed => none

/-- df["revenue"].astype(float) on a single field: numbers and numeric
strings coerce to their value, a missing field is NaN (`some none`),
a non-numeric string raises (`none`). -/
def coerceY : RevField → Option (Option ℚ)
  | .num v => some (some v)
  | .numStr v => some (some v)
  | .badStr => none
  | .missing => some none

/-- Normalize one record into a dataframe row; fails if the date is
unparseable or the revenue is a non-numeric string. -/
def normRecord (r : Record) : Option NormObs := do
  let d ← parseDate r.date
  let v ← coerceY r.revenue
  pure ⟨d, v⟩

/-- Element-wise fallible column construction: applies `f` to every
element and fails on the first failure, the way a pandas column
operation raises on the first bad cell. -/
def colMap {α β : Type} (f : α → Option β) : List α → Option (List β)
  | [] => some []
  | a :: l => do
    let b ← f a
    let bs ← colMap f l
    pure (b :: bs)

/-- prepare_data: builds the dataframe, parses dates, coerces revenue
to float, and sorts by date (df.sort_values("ds")). On an empty record
list the constructed frame has no columns and `df["date"]` raises
(modelled by `none`); any unparseable field also raises. -/
def prepare_data (data : List Record) : Option (List NormObs) :=
  if data = [] then none
  else
    (colMap normRecord data).map
      (fun rows => rows.insertionSort (fun a b => a.ds ≤ b.ds))

/-- pandas df["y"].mean() with the default skipna: the mean of the
non-NaN values, or NaN (`none`) when no value is present. -/
def meanY (df : List NormObs) : Option ℚ :=
  let vals := (df.map NormObs.y).reduceOption
  if vals.length = 0 then none else some (vals.sum / vals.length)

/-- A raw model output float: `some v` is the finite value `v`,
`none` is NaN or an infinity. -/
abbrev RawVal := Option ℚ

/-- The per-element validation in the model tier:
`float(p) if np.isfinite(p) and p > 0 else float(df["y"].mean())`. -/
def validateVal (m : Option ℚ) (p : RawVal) : Option ℚ :=
  match p with
  | some v => if 0 < v then some v else m
  | none => m

/-- Python list slicing `l[:h]` for an arbitrary integer `h`:
a negative bound counts from the end, clamped at zero. -/
def pySliceTo {α : Type} (l : List α) (h : Int) : List α :=
  if 0 ≤ h then l.take h.toNat else l.take (l.length - (-h).toNat)

/-- Python `[x] * h`: `h.toNat` copies (a non-positive count gives the
empty list). -/
def pyRepl {α : Type} (x : α) (h : Int) : List α :=
  List.replicate h.toNat x

/-- One summand of the last-resort fallback `sum(d.get("revenue", 0)
for d in data)`: a number adds its value, a missing key adds the
default 0, and any string makes `+` raise TypeError (`none`). -/
def rawRevTerm : RevField → Option ℚ
  | .num v => some v
  | .numStr _ => none
  | .badStr => none
  | .missing => some 0

/-- The last-resort raw mean over the unvalidated records:
`sum(d.get("revenue", 0) for d in data) / len(data)`; `none` when the
sum raises on a string revenue field. -/
def rawMean (data : List Record) : Option ℚ :=
  (colMap (fun r => rawRevTerm r.revenue) data).map
    (fun vs => vs.sum / data.length)

/-- An exception escaping the `forecast` function. -/
inductive PyErr
  | typeError
  deriving DecidableEq

/-- forecast(data, horizon): the three-tier fallback chain.
Mirrors the source: try prepare_data; a series shorter than 14 rows
returns `[float(df["y"].mean())] * horizon`; otherwise the neural
tier (the opaque `oracle`) is attempted and its raw output is sliced
to `horizon` and validated per element. On any exception the handler
re-runs prepare_data and returns mean copies; if that raises too, the
bare-except fallback returns raw-mean copies for non-empty input
(raising TypeError out of `forecast` when a revenue field is a
string) and `[0.0] * horizon` for empty input. -/
def forecast (data : List Record) (horizon : Int)
    (oracle : Option (List RawVal)) : Except PyErr (List (Option ℚ)) :=
  match prepare_data data with
  | some df =>
    if df.length < 14 then
      .ok (pyRepl (meanY df) horizon)
    else
      match oracle with
      | some raw =>
        .ok ((pySliceTo raw horizon).map (validateVal (meanY df)))
      | none =>
        .ok (pyRepl (meanY df) horizon)
  | none =>
    if data = [] then .ok (pyRepl (some 0) horizon)
    else
      match rawMean data with
      | some m => .ok (pyRepl (some m) horizon)
      | none => .error .typeError

/-- The distinct failure messages the protocol adapter can emit. -/
inductive ErrKind
  | emptyHistoricalData
  | noPredictionsGenerated
  | forecastRaised (e : PyErr)
  deriving DecidableEq

/-- The JSON object written to stdout, plus the process exit status. -/
structure Response where
  success : Bool
  predictions : List (Option ℚ)
  error : Option ErrKind
  model : Option String
  exitCode : Nat
  deriving DecidableEq

/-- The failure envelope: `{"success": False, "error": ..,
"predictions": []}` followed by `sys.exit(1)`. -/
def failResponse (e : ErrKind) : Response :=
  ⟨false, [], some e, none, 1⟩

/-- The `__main__` block after JSON decoding: `historical_data`
defaults to `[]` when the key is absent, an empty list raises
ValueError before any forecast is attempted, an empty prediction list
raises ValueError after, and a successful run prints
`{"success": True, "predictions": .., "model": "NHITS"}` and exits 0. -/
def runMain (historical_data : List Record) (horizon : Int)
    (oracle : Option (List RawVal)) : Response :=
  if historical_data = [] then failResponse .emptyHistoricalData
  else
    match forecast historical_data horizon oracle with
    | .error e => failResponse (.forecastRaised e)
    | .ok preds =>
      if preds = [] then failResponse .noPredictionsGenerated
      else ⟨true, preds, none, some "NHITS", 0⟩

/-- A record is well formed when its date parses and its revenue field
coerces to a number (a JSON number or a numeric string). -/
def wfRecord (r : Record) : Prop :=
  r.date ≠ .malformed ∧ r.revenue ≠ .badStr ∧ r.revenue ≠ .missing

instance : DecidablePred wfRecord := fun r => by
  unfold wfRecord; infer_instance

/-- The numeric value of a well-formed revenue field (0 for the
ill-formed constructors, which well-formedness excludes). -/
def recValue (r : Record) : ℚ :=
  match r.revenue with
  | .num v => v
  | .numStr v => v
  | .badStr => 0
  | .missing => 0

/-- The arithmetic mean of the input revenue values. -/
def inputMean (data : List Record) : ℚ :=
  (data.map recValue).sum / data.length

/-- The library contract for the opaque neural tier: a model
constructed with `h = horizon` either raises or predicts exactly
`horizon` rows. -/
def OracleOK (oracle : Option (List RawVal)) (horizon : Int) : Prop :=
  ∀ raw, oracle = some raw → (raw.length : Int) = horizon

/-- A prediction value that is finite and strictly positive, the
validity condition `np.isfinite(p) and p > 0` of the model tier. -/
def finitePos (p : Option ℚ) : Prop := ∃ v, p = some v ∧ 0 < v

/-- Concrete input from the spec example: five observations with
revenues 100, 110, 90, 105, 95. -/
def d5 : List Record :=
  [⟨.valid 0, .num 100⟩, ⟨.valid 1, .num 110⟩, ⟨.valid 2, .num 90⟩,
   ⟨.valid 3, .num 105⟩, ⟨.valid 4, .num 95⟩]

/-- Concrete input: a single record with a malformed date and numeric
revenue 100. -/
def cm1 : List Record := [⟨.malformed, .num 100⟩]

/-- Concrete input: a single record whose revenue field is a
non-numeric string. -/
def cbad : List Record := [⟨.valid 0, .badStr⟩]

/-- Concrete input: fourteen records, every revenue 0 (the all-zero
boundary case of section 9 of the design notes). -/
def z14 : List Record := List.replicate 14 ⟨.valid 0, .num 0⟩

/-- Concrete input: fourteen records, every revenue 100. -/
def p14 : List Record := List.replicate 14 ⟨.valid 0, .num 100⟩

/-- Concrete raw model output: seven values, all -1 (finite but not
positive). -/
def rawNeg : List RawVal := List.replicate 7 (some (-1))

/-- Concrete raw model output: seven values, all 5 (finite, positive). -/
def rawPos : List RawVal := List.replicate 7 (some 5)

/-- Concrete input: a malformed-date record with revenue 4 followed by
a valid-date record with a missing revenue field. -/
def cmix : List Record := [⟨.malformed, .num 4⟩, ⟨.valid 1, .missing⟩]

/-- Concrete raw model output mixing a valid value, a non-positive
value and a NaN. -/
def rawMix : List RawVal := [some 5, some (-3), none]

/-- The parsed ordinal of a date field (0 for the malformed case,
which well-formedness excludes; used only to name the normalized
rows of a well-formed input). -/
def ordOf : DateField → Int
  | .valid d => d
  | .malformed => 0

/-! ## Helper lemmas about normalization and the fallback chain -/

theorem normRecord_wf (r : Record) (h : wfRecord r) :
    normRecord r = some ⟨ordOf r.date, some (recValue r)⟩ := by
  obtain ⟨h1, h2, h3⟩ := h
  cases hd : r.date with
  | malformed => exact absurd hd h1
  | valid d =>
    cases hv : r.revenue with
    | num v => simp [normRecord, hd, hv, parseDate, coerceY, ordOf, recValue]
    | numStr v => simp [normRecord, hd, hv, parseDate, coerceY, ordOf, recValue]
    | badStr => exact absurd hv h2
    | missing => exact absurd hv h3

theorem colMap_normRecord_wf : ∀ (data : List Record),
    (∀ r ∈ data, wfRecord r) →
    colMap normRecord data =
      some (data.map (fun r => (⟨ordOf r.date, some (recValue r)⟩ : NormObs)))
  | [], _ => rfl
  | a :: l, h => by
    have ha := normRecord_wf a (h a (List.mem_cons_self a l))
    have hl := colMap_normRecord_wf l (fun r hr => h r (List.mem_cons_of_mem a hr))
    simp [colMap, ha, hl]

theorem colMap_normRecord_none : ∀ (data : List Record) (r : Record),
    r ∈ data → normRecord r = none → colMap normRecord data = none
  | [], r, hr, _ => absurd hr (List.not_mem_nil r)
  | a :: l, r, hr, hn => by
    rcases List.mem_cons.mp hr with rfl | hmem
    · simp [colMap, hn]
    · cases hfa : normRecord a with
      | none => simp [colMap, hfa]
      | some x => simp [colMap, hfa, colMap_normRecord_none l r hmem hn]

theorem perm_reduceOption {α : Type} {l₁ l₂ : List (Option α)}
    (h : l₁.Perm l₂) : l₁.reduceOption.Perm l₂.reduceOption := by
  simpa [List.reduceOption] using h.filterMap id

theorem reduceOption_map_some {α β : Type} (f : α → β) (l : List α) :
    (l.map (fun a => some (f a))).reduceOption = l.map f := by
  induction l with
  | nil => rfl
  | cons a l ih => simp [List.reduceOption_cons_of_some, ih]

theorem map_y_rows (data : List Record) :
    (data.map (fun r =>
      (⟨ordOf r.date, some (recValue r)⟩ : NormObs))).map NormObs.y =
      data.map (fun r => some (recValue r)) := by
  rw [List.map_map]
  rfl

theorem reduceOption_map_y (data : List Record) :
    ((data.map (fun r => (⟨ordOf r.date, some (recValue r)⟩ : NormObs))).map
      NormObs.y).reduceOption = data.map recValue := by
  rw [map_y_rows, reduceOption_map_some]

theorem meanY_of_perm (df : List NormObs) (data : List Record)
    (hperm : (df.map NormObs.y).reduceOption.Perm (data.map recValue))
    (hne : data ≠ []) :
    meanY df = some (inputMean data) := by
  have hlen : (df.map NormObs.y).reduceOption.length = data.length := by
    rw [hperm.length_eq, List.length_map]
  have hsum : (df.map NormObs.y).reduceOption.sum = (data.map recValue).sum :=
    hperm.sum_eq
  have hnz : data.length ≠ 0 := by
    simpa [List.length_eq_zero] using hne
  simp [meanY, hlen, hsum, hnz, inputMean]

theorem prepare_data_wf (data : List Record) (hne : data ≠ [])
    (hwf : ∀ r ∈ data, wfRecord r) :
    ∃ df, prepare_data data = some df ∧ df.length = data.length ∧
      meanY df = some (inputMean data) := by
  have hmap := colMap_normRecord_wf data hwf
  refine ⟨(data.map (fun r =>
      (⟨ordOf r.date, some (recValue r)⟩ : NormObs))).insertionSort
      (fun a b => a.ds ≤ b.ds), ?_, ?_, ?_⟩
  · rw [prepare_data, if_neg hne, hmap]
    rfl
  · rw [(List.perm_insertionSort _ _).length_eq, List.length_map]
  · have hperm := List.perm_insertionSort (fun a b : NormObs => a.ds ≤ b.ds)
      (data.map (fun r => (⟨ordOf r.date, some (recValue r)⟩ : NormObs)))
    have hyv := perm_reduceOption (hperm.map NormObs.y)
    rw [reduceOption_map_y data] at hyv
    exact meanY_of_perm _ data hyv hne

theorem forecast_short (data : List Record) (horizon : Int)
    (oracle : Option (List RawVal)) (hne : data ≠ [])
    (hwf : ∀ r ∈ data, wfRecord r) (hshort : data.length < 14) :
    forecast data horizon oracle =
      .ok (List.replicate horizon.toNat (some (inputMean data))) := by
  obtain ⟨df, hdf, hlen, hmean⟩ := prepare_data_wf data hne hwf
  have hl : df.length < 14 := by omega
  simp [forecast, hdf, hl, hmean, pyRepl]

theorem forecast_model_exc (data : List Record) (horizon : Int)
    (hne : data ≠ []) (hwf : ∀ r ∈ data, wfRecord r)
    (hlong : 14 ≤ data.length) :
    forecast data horizon none =
      .ok (List.replicate horizon.toNat (some (inputMean data))) := by
  obtain ⟨df, hdf, hlen, hmean⟩ := prepare_data_wf data hne hwf
  have hl : ¬ df.length < 14 := by omega
  simp [forecast, hdf, hl, hmean, pyRepl]

theorem forecast_model_tier (data : List Record) (horizon : Int)
    (raw : List RawVal) (hne : data ≠ [])
    (hwf : ∀ r ∈ data, wfRecord r) (hlong : 14 ≤ data.length) :
    forecast data horizon (some raw) =
      .ok ((pySliceTo raw horizon).map
        (validateVal (some (inputMean data)))) := by
  obtain ⟨df, hdf, hlen, hmean⟩ := prepare_data_wf data hne hwf
  have hl : ¬ df.length < 14 := by omega
  simp [forecast, hdf, hl, hmean]

theorem colMap_rawRevTerm : ∀ (data : List Record),
    (∀ s ∈ data, (∃ v, s.revenue = .num v) ∨ s.revenue = .missing) →
    colMap (fun r => rawRevTerm r.revenue) data = some (data.map recValue)
  | [], _ => rfl
  | a :: l, h => by
    have hl := colMap_rawRevTerm l (fun s hs => h s (List.mem_cons_of_mem a hs))
    rcases h a (List.mem_cons_self a l) with ⟨v, hv⟩ | hv <;>
      simp only [colMap, hl, List.map_cons] <;>
      simp [rawRevTerm, recValue, hv]

theorem rawMean_numOrMissing (data : List Record)
    (h : ∀ s ∈ data, (∃ v, s.revenue = .num v) ∨ s.revenue = .missing) :
    rawMean data = some (inputMean data) := by
  rw [rawMean, colMap_rawRevTerm data h]
  rfl

/-! ## Concrete evaluations shared by witnesses and counterexamples -/

theorem inputMean_d5 : inputMean d5 = 100 := by
  simp [inputMean, d5, recValue]
  norm_num

theorem inputMean_z14 : inputMean z14 = 0 := by
  simp [inputMean, z14, recValue]

theorem inputMean_p14 : inputMean p14 = 100 := by
  simp [inputMean, p14, recValue]
  norm_num

theorem forecast_d5_eval : forecast d5 3 none =
    .ok [some 100, some 100, some 100] := by
  rw [forecast_short d5 3 none (by decide) (by decide) (by decide),
    inputMean_d5]
  rfl

theorem runMain_d5_eval : runMain d5 3 none =
    ⟨true, [some 100, some 100, some 100], none, some "NHITS", 0⟩ := by
  have hne : d5 ≠ [] := by decide
  simp [runMain, forecast_d5_eval, hne]

theorem forecast_p14_eval : forecast p14 7 (some rawPos) =
    .ok [some 5, some 5, some 5, some 5, some 5, some 5, some 5] := by
  rw [forecast_model_tier p14 7 rawPos (by decide) (by decide) (by decide),
    inputMean_p14]
  norm_num [pySliceTo, rawPos, validateVal, List.replicate]

theorem runMain_p14_eval : runMain p14 7 (some rawPos) =
    ⟨true, [some 5, some 5, some 5, some 5, some 5, some 5, some 5],
      none, some "NHITS", 0⟩ := by
  have hne : p14 ≠ [] := by decide
  simp [runMain, forecast_p14_eval, hne]

/-! ## Claims -/

/-- C1, counterexample. The claim says any input containing a record
with an unparseable date makes the worker fail the whole request
(success:false, a parsing error, exit code 1, no fallback forecast).
On the code, the single-record input with a malformed date and
revenue 100 instead yields success:true, exit code 0, no error, and
three copies of the raw-mean fallback forecast: the broad except
clauses in `forecast` swallow the date-parsing failure. -/
theorem C1_counterexample :
    (runMain cm1 3 none).success = true ∧
    (runMain cm1 3 none).exitCode = 0 ∧
    (runMain cm1 3 none).error = none ∧
    (runMain cm1 3 none).predictions = [some 100, some 100, some 100] := by
  have hfc : forecast cm1 3 none = .ok [some 100, some 100, some 100] := by
    simp [forecast, prepare_data, cm1, colMap, normRecord, parseDate,
      rawMean, rawRevTerm, pyRepl]
  have hne : cm1 ≠ [] := by decide
  simp [runMain, hfc, hne]

/-- C1, amended. A malformed date anywhere in the input does not fail
the request: provided every revenue field is a JSON number or absent
and the horizon is positive, normalization fails, `forecast` silently
substitutes horizon copies of the raw mean of the revenue fields
(absent read as 0), and the worker reports success:true with exit
code 0 and no error. -/
theorem C1_amended_silent_fallback (data : List Record) (horizon : Int)
    (oracle : Option (List RawVal)) (r : Record) (hr : r ∈ data)
    (hmal : r.date = .malformed)
    (hrev : ∀ s ∈ data, (∃ v, s.revenue = .num v) ∨ s.revenue = .missing)
    (hpos : 0 < horizon) :
    (runMain data horizon oracle).success = true ∧
    (runMain data horizon oracle).exitCode = 0 ∧
    (runMain data horizon oracle).error = none ∧
    (runMain data horizon oracle).predictions =
      List.replicate horizon.toNat (some (inputMean data)) := by
  have hne : data ≠ [] := by
    intro h
    subst h
    exact (List.not_mem_nil r) hr
  have hpn : normRecord r = none := by
    simp [normRecord, hmal, parseDate]
  have hprep : prepare_data data = none := by
    simp [prepare_data, hne, colMap_normRecord_none data r hr hpn]
  have hfc : forecast data horizon oracle =
      .ok (List.replicate horizon.toNat (some (inputMean data))) := by
    simp [forecast, hprep, hne, rawMean_numOrMissing data hrev, pyRepl]
  have hnil : List.replicate horizon.toNat (some (inputMean data)) ≠ [] := by
    intro hcon
    have := congrArg List.length hcon
    simp at this
    omega
  simp [runMain, hne, hfc, hnil]

/-- C1, witness for the amended theorem at the concrete input `cm1`
(one malformed-date record with revenue 100), horizon 3. -/
theorem C1_amended_witness :
    ((⟨.malformed, .num 100⟩ : Record) ∈ cm1 ∧
      (⟨.malformed, .num 100⟩ : Record).date = .malformed ∧
      (∀ s ∈ cm1, (∃ v, s.revenue = .num v) ∨ s.revenue = .missing) ∧
      (0 : Int) < 3) ∧
    ((runMain cm1 3 none).success = true ∧
      (runMain cm1 3 none).exitCode = 0 ∧
      (runMain cm1 3 none).error = none ∧
      (runMain cm1 3 none).predictions =
        List.replicate (3 : Int).toNat (some (inputMean cm1))) := by
  have hmem : (⟨.malformed, .num 100⟩ : Record) ∈ cm1 :=
    List.mem_singleton.mpr rfl
  have hrev : ∀ s ∈ cm1, (∃ v, s.revenue = .num v) ∨ s.revenue = .missing := by
    intro s hs
    rw [cm1, List.mem_singleton] at hs
    subst hs
    exact Or.inl ⟨100, rfl⟩
  exact ⟨⟨hmem, rfl, hrev, by norm_num⟩,
    C1_amended_silent_fallback cm1 3 none _ hmem rfl hrev (by norm_num)⟩

/-- C2: for every non-empty well-formed input and every positive
horizon, the response reports success:true and the predictions list
has length exactly horizon, under the library contract that a model
built with h = horizon predicts exactly horizon rows. -/
theorem C2_success_horizon_length (data : List Record) (horizon : Int)
    (oracle : Option (List RawVal)) (hne : data ≠ [])
    (hwf : ∀ r ∈ data, wfRecord r) (hpos : 0 < horizon)
    (hok : OracleOK oracle horizon) :
    (runMain data horizon oracle).success = true ∧
    ((runMain data horizon oracle).predictions.length : Int) = horizon := by
  have hfc : ∃ preds, forecast data horizon oracle = .ok preds ∧
      (preds.length : Int) = horizon := by
    rcases Nat.lt_or_ge data.length 14 with hshort | hlong
    · refine ⟨_, forecast_short data horizon oracle hne hwf hshort, ?_⟩
      simp only [List.length_replicate]
      omega
    · cases oracle with
      | none =>
        refine ⟨_, forecast_model_exc data horizon hne hwf hlong, ?_⟩
        simp only [List.length_replicate]
        omega
      | some raw =>
        have hlenraw := hok raw rfl
        refine ⟨_, forecast_model_tier data horizon raw hne hwf hlong, ?_⟩
        simp only [List.length_map, pySliceTo, if_pos hpos.le,
          List.length_take]
        omega
  obtain ⟨preds, hp, hlen⟩ := hfc
  have hnil : preds ≠ [] := by
    intro h
    subst h
    simp at hlen
    omega
  simp [runMain, hne, hp, hnil, hlen]

/-- C2, witness at the concrete well-formed five-record input `d5`
with horizon 3 and a raising neural tier. -/
theorem C2_witness :
    (d5 ≠ [] ∧ (∀ r ∈ d5, wfRecord r) ∧ (0 : Int) < 3 ∧ OracleOK none 3) ∧
    ((runMain d5 3 none).success = true ∧
      ((runMain d5 3 none).predictions.length : Int) = 3) := by
  refine ⟨⟨by decide, by decide, by norm_num, fun raw h => nomatch h⟩, ?_⟩
  exact C2_success_horizon_length d5 3 none (by decide) (by decide)
    (by norm_num) (fun raw h => nomatch h)

/-- C3: for every well-formed input of length strictly less than 14
and every horizon, the forecast is horizon copies of the arithmetic
mean of the input revenue values, whatever raw output the neural tier
would have produced: the learned-model tier is skipped entirely. -/
theorem C3_heuristic_mean (data : List Record) (horizon : Int)
    (oracle : Option (List RawVal)) (hne : data ≠ [])
    (hwf : ∀ r ∈ data, wfRecord r) (hshort : data.length < 14) :
    forecast data horizon oracle =
      .ok (List.replicate horizon.toNat (some (inputMean data))) :=
  forecast_short data horizon oracle hne hwf hshort

/-- C3, witness: the spec example, revenues 100, 110, 90, 105, 95 and
horizon 3, gives three copies of the mean 100 even when the neural
tier would have produced 999. -/
theorem C3_witness :
    (d5 ≠ [] ∧ (∀ r ∈ d5, wfRecord r) ∧ d5.length < 14) ∧
    forecast d5 3 (some [some 999]) = .ok (List.replicate 3 (some 100)) := by
  refine ⟨⟨by decide, by decide, by decide⟩, ?_⟩
  rw [C3_heuristic_mean d5 3 (some [some 999]) (by decide) (by decide)
    (by decide), inputMean_d5]
  rfl

/-- C4, counterexample. The claim says every model-tier prediction is
finite and strictly positive. On the all-zero fourteen-record series,
a raw neural output of seven -1 values is substituted element-wise by
the series mean 0, so the returned predictions are seven zeros: the
value 0 is not strictly positive. This is the section 9 boundary case
the source does not special-case. -/
theorem C4_counterexample :
    forecast z14 7 (some rawNeg) = .ok (List.replicate 7 (some 0)) ∧
    ¬ (∀ p ∈ List.replicate 7 (some (0 : ℚ)), finitePos p) := by
  constructor
  · rw [forecast_model_tier z14 7 rawNeg (by decide) (by decide) (by decide),
      inputMean_z14]
    have h7 : (7 : Int).toNat = 7 := rfl
    norm_num [pySliceTo, rawNeg, validateVal, List.take_replicate, h7]
  · intro hall
    obtain ⟨v, hv, hpos⟩ := hall (some 0) (by simp)
    obtain rfl : (0 : ℚ) = v := Option.some.inj hv
    exact absurd hpos (lt_irrefl 0)

/-- C4, amended. Every model-tier prediction is finite (the validation
replaces every non-finite raw value), and when the arithmetic mean of
the input series is strictly positive every prediction is strictly
positive as well; a raw value failing the check is replaced by the
series mean, so when that mean is non-positive (all-zero revenue) a
non-positive prediction survives, as the counterexample shows. -/
theorem C4_amended_positive (data : List Record) (horizon : Int)
    (raw : List RawVal) (hne : data ≠ [])
    (hwf : ∀ r ∈ data, wfRecord r) (hlong : 14 ≤ data.length)
    (hm : 0 < inputMean data) :
    ∃ out, forecast data horizon (some raw) = .ok out ∧
      ∀ p ∈ out, finitePos p := by
  refine ⟨_, forecast_model_tier data horizon raw hne hwf hlong, ?_⟩
  intro p hp
  rw [List.mem_map] at hp
  obtain ⟨q, hq, rfl⟩ := hp
  cases q with
  | none => exact ⟨inputMean data, rfl, hm⟩
  | some v =>
    by_cases hv : 0 < v
    · exact ⟨v, by simp [validateVal, hv], hv⟩
    · exact ⟨inputMean data, by simp [validateVal, hv], hm⟩

/-- C4, witness for the amended theorem: fourteen records of revenue
100 (mean 100 > 0) with a raw output mixing a positive value, a
negative value and a NaN. -/
theorem C4_amended_witness :
    (p14 ≠ [] ∧ (∀ r ∈ p14, wfRecord r) ∧ 14 ≤ p14.length ∧
      0 < inputMean p14) ∧
    (∃ out, forecast p14 7 (some rawMix) = .ok out ∧
      ∀ p ∈ out, finitePos p) := by
  have hm : 0 < inputMean p14 := by
    rw [inputMean_p14]
    norm_num
  exact ⟨⟨by decide, by decide, by decide, hm⟩,
    C4_amended_positive p14 7 rawMix (by decide) (by decide) (by decide) hm⟩

/-- C5: the model-tier post-processing is per element. The output is
index-aligned with the horizon-sliced raw vector: a raw value that is
finite and strictly positive passes through unchanged at its own
index, and a raw value that is non-finite or non-positive is replaced
at its own index by the series mean; the vector is never replaced as
a whole. -/
theorem C5_per_element_validation (data : List Record) (horizon : Int)
    (raw : List RawVal) (hne : data ≠ [])
    (hwf : ∀ r ∈ data, wfRecord r) (hlong : 14 ≤ data.length) :
    ∃ out, forecast data horizon (some raw) = .ok out ∧
      out.length = (pySliceTo raw horizon).length ∧
      (∀ (i : ℕ) (v : ℚ), (pySliceTo raw horizon)[i]? = some (some v) →
        0 < v → out[i]? = some (some v)) ∧
      (∀ (i : ℕ) (v : ℚ), (pySliceTo raw horizon)[i]? = some (some v) →
        ¬ 0 < v → out[i]? = some (some (inputMean data))) ∧
      (∀ (i : ℕ), (pySliceTo raw horizon)[i]? = some none →
        out[i]? = some (some (inputMean data))) := by
  refine ⟨_, forecast_model_tier data horizon raw hne hwf hlong,
    by simp, ?_, ?_, ?_⟩
  · intro i v hi hv
    rw [List.getElem?_map, hi]
    simp [validateVal, hv]
  · intro i v hi hv
    rw [List.getElem?_map, hi]
    simp [validateVal, hv]
  · intro i hi
    rw [List.getElem?_map, hi]
    simp [validateVal]

/-- C5, witness at fourteen records of revenue 100 with the mixed raw
output [5, -3, NaN] and horizon 3. -/
theorem C5_witness :
    (p14 ≠ [] ∧ (∀ r ∈ p14, wfRecord r) ∧ 14 ≤ p14.length) ∧
    (∃ out, forecast p14 3 (some rawMix) = .ok out ∧
      out.length = (pySliceTo rawMix 3).length ∧
      (∀ (i : ℕ) (v : ℚ), (pySliceTo rawMix 3)[i]? = some (some v) →
        0 < v → out[i]? = some (some v)) ∧
      (∀ (i : ℕ) (v : ℚ), (pySliceTo rawMix 3)[i]? = some (some v) →
        ¬ 0 < v → out[i]? = some (some (inputMean p14))) ∧
      (∀ (i : ℕ), (pySliceTo rawMix 3)[i]? = some none →
        out[i]? = some (some (inputMean p14)))) :=
  ⟨⟨by decide, by decide, by decide⟩,
    C5_per_element_validation p14 3 rawMix (by decide) (by decide) (by decide)⟩

/-- C6, counterexample. The claim says `forecast` is total, including
on value-malformed input. On the single-record input whose revenue
field is a non-numeric string, normalization fails and the last-resort
fallback computes `sum(d.get("revenue", 0) for d in data)`, which adds
0 to a string and raises TypeError out of `forecast`: the function is
not total. -/
theorem C6_counterexample :
    forecast cbad 3 none = .error .typeError := by
  simp [forecast, prepare_data, cbad, colMap, normRecord, parseDate, coerceY,
    rawMean, rawRevTerm]

/-- C6, amended. `forecast` is total on every input whose revenue
fields are all JSON numbers or absent: it always returns a list; on
normalization failure (a malformed date) it returns horizon copies of
the raw mean of the revenue fields with absent read as zero; on empty
input it returns horizon zeros. (With a string revenue field and a
failing normalization it instead raises TypeError, as the
counterexample shows, so the hypothesis cannot be dropped.) -/
theorem C6_amended_totality (data : List Record) (horizon : Int)
    (oracle : Option (List RawVal))
    (hrev : ∀ s ∈ data, (∃ v, s.revenue = .num v) ∨ s.revenue = .missing) :
    (∃ out, forecast data horizon oracle = .ok out) ∧
    (data = [] → forecast data horizon oracle =
      .ok (List.replicate horizon.toNat (some 0))) ∧
    ((∃ r ∈ data, r.date = .malformed) → forecast data horizon oracle =
      .ok (List.replicate horizon.toNat (some (inputMean data)))) := by
  refine ⟨?_, ?_, ?_⟩
  · cases hprep : prepare_data data with
    | some df =>
      by_cases hlt : df.length < 14
      · exact ⟨pyRepl (meanY df) horizon, by simp [forecast, hprep, hlt]⟩
      · cases oracle with
        | some raw =>
          exact ⟨(pySliceTo raw horizon).map (validateVal (meanY df)),
            by simp [forecast, hprep, hlt]⟩
        | none =>
          exact ⟨pyRepl (meanY df) horizon, by simp [forecast, hprep, hlt]⟩
    | none =>
      by_cases hnil : data = []
      · subst hnil
        exact ⟨pyRepl (some 0) horizon, by simp [forecast, hprep]⟩
      · exact ⟨pyRepl (some (inputMean data)) horizon, by
          simp [forecast, hprep, hnil, rawMean_numOrMissing data hrev]⟩
  · intro hnil
    subst hnil
    simp [forecast, prepare_data, pyRepl]
  · rintro ⟨r, hr, hmal⟩
    have hne : data ≠ [] := by
      intro h
      subst h
      exact (List.not_mem_nil r) hr
    have hpn : normRecord r = none := by
      simp [normRecord, hmal, parseDate]
    have hprep : prepare_data data = none := by
      simp [prepare_data, hne, colMap_normRecord_none data r hr hpn]
    simp [forecast, hprep, hne, rawMean_numOrMissing data hrev, pyRepl]

/-- C6, witness for the amended theorem: a malformed-date record with
revenue 4 followed by a valid record with a missing revenue field,
horizon 2; normalization fails and the raw mean (4 + 0) / 2 = 2 is
returned, no exception escapes. -/
theorem C6_amended_witness :
    (∀ s ∈ cmix, (∃ v, s.revenue = .num v) ∨ s.revenue = .missing) ∧
    ((∃ out, forecast cmix 2 none = .ok out) ∧
      (cmix = [] → forecast cmix 2 none =
        .ok (List.replicate (2 : Int).toNat (some 0))) ∧
      ((∃ r ∈ cmix, r.date = .malformed) → forecast cmix 2 none =
        .ok (List.replicate (2 : Int).toNat (some (inputMean cmix))))) := by
  have hrev : ∀ s ∈ cmix, (∃ v, s.revenue = .num v) ∨ s.revenue = .missing := by
    intro s hs
    rw [cmix] at hs
    rcases List.mem_cons.mp hs with rfl | hs
    · exact Or.inl ⟨4, rfl⟩
    · rw [List.mem_singleton] at hs
      subst hs
      exact Or.inr rfl
  exact ⟨hrev, C6_amended_totality cmix 2 none hrev⟩

/-- C7: for every well-formed series of length at least 14, when the
learned-model tier raises (oracle `none`, covering configuration,
training and inference failures), `forecast` swallows the exception
and returns horizon copies of the mean of the normalized series, and
for a positive horizon the protocol response still reports
success:true with exit code 0: the exception never reaches the
caller. -/
theorem C7_model_exception_fallback (data : List Record) (horizon : Int)
    (hne : data ≠ []) (hwf : ∀ r ∈ data, wfRecord r)
    (hlong : 14 ≤ data.length) (hpos : 0 < horizon) :
    forecast data horizon none =
      .ok (List.replicate horizon.toNat (some (inputMean data))) ∧
    (runMain data horizon none).success = true ∧
    (runMain data horizon none).exitCode = 0 := by
  have hfc := forecast_model_exc data horizon hne hwf hlong
  have hnil : List.replicate horizon.toNat (some (inputMean data)) ≠ [] := by
    intro hcon
    have := congrArg List.length hcon
    simp at this
    omega
  refine ⟨hfc, ?_, ?_⟩ <;> simp [runMain, hne, hfc, hnil]

/-- C7, witness at fourteen records of revenue 100, horizon 7, with
the neural tier raising. -/
theorem C7_witness :
    (p14 ≠ [] ∧ (∀ r ∈ p14, wfRecord r) ∧ 14 ≤ p14.length ∧
      (0 : Int) < 7) ∧
    (forecast p14 7 none =
      .ok (List.replicate (7 : Int).toNat (some (inputMean p14))) ∧
      (runMain p14 7 none).success = true ∧
      (runMain p14 7 none).exitCode = 0) :=
  ⟨⟨by decide, by decide, by decide, by norm_num⟩,
    C7_model_exception_fallback p14 7 (by decide) (by decide) (by decide)
      (by norm_num)⟩

/-- C8: for every horizon and every behavior of the neural tier, an
empty (or absent, which the protocol reads as empty) historical_data
list makes the adapter emit success:false with predictions:[] and
exit status 1; the response is the fixed failure envelope whatever the
oracle would have returned, so no fallback forecast is attempted. -/
theorem C8_empty_input (horizon : Int) (oracle : Option (List RawVal)) :
    runMain [] horizon oracle = failResponse .emptyHistoricalData ∧
    (runMain [] horizon oracle).success = false ∧
    (runMain [] horizon oracle).predictions = [] ∧
    (runMain [] horizon oracle).exitCode = 1 := by
  refine ⟨rfl, ?_, ?_, ?_⟩ <;> rfl

/-- C9, counterexample. The claim says the tag of a heuristic-tier
response differs from the learned-model tag. The heuristic-tier
success (5 records, neural tier skipped) and the learned-tier success
(14 records, neural output accepted) both carry the same constant tag
"NHITS". -/
theorem C9_counterexample :
    (runMain d5 3 none).success = true ∧
    (runMain p14 7 (some rawPos)).success = true ∧
    (runMain d5 3 none).model = some "NHITS" ∧
    (runMain d5 3 none).model = (runMain p14 7 (some rawPos)).model := by
  rw [runMain_d5_eval, runMain_p14_eval]
  exact ⟨rfl, rfl, rfl, rfl⟩

/-- C9, amended. The model field does not identify the tier: every
success response carries the constant tag "NHITS", whichever tier
produced the predictions. -/
theorem C9_amended_constant_tag (data : List Record) (horizon : Int)
    (oracle : Option (List RawVal))
    (hsucc : (runMain data horizon oracle).success = true) :
    (runMain data horizon oracle).model = some "NHITS" := by
  by_cases hne : data = []
  · simp [runMain, hne, failResponse] at hsucc
  · cases hfc : forecast data horizon oracle with
    | error e => simp [runMain, hne, hfc, failResponse] at hsucc
    | ok preds =>
      by_cases hnil : preds = []
      · simp [runMain, hne, hfc, hnil, failResponse] at hsucc
      · simp [runMain, hne, hfc, hnil]

/-- C9, witness for the amended theorem at the heuristic-tier input
`d5`. -/
theorem C9_amended_witness :
    (runMain d5 3 none).success = true ∧
    (runMain d5 3 none).model = some "NHITS" := by
  have hs : (runMain d5 3 none).success = true := by
    rw [runMain_d5_eval]
  exact ⟨hs, C9_amended_constant_tag d5 3 none hs⟩

/-- C10: for every non-empty well-formed input and every horizon that
is zero or negative, `forecast` returns the empty list (Python
list-by-integer multiplication yields [] for a non-positive count, and
with h = horizon the neural tier cannot return rows), so the adapter
reports success:false with predictions:[] and exits with status 1 even
though the historical data is valid. -/
theorem C10_nonpositive_horizon (data : List Record) (horizon : Int)
    (oracle : Option (List RawVal)) (hne : data ≠ [])
    (hwf : ∀ r ∈ data, wfRecord r) (hnp : horizon ≤ 0)
    (hok : OracleOK oracle horizon) :
    forecast data horizon oracle = .ok [] ∧
    runMain data horizon oracle = failResponse .noPredictionsGenerated ∧
    (runMain data horizon oracle).success = false ∧
    (runMain data horizon oracle).predictions = [] ∧
    (runMain data horizon oracle).exitCode = 1 := by
  have htn : horizon.toNat = 0 := by omega
  have hfc : forecast data horizon oracle = .ok [] := by
    rcases Nat.lt_or_ge data.length 14 with hshort | hlong
    · rw [forecast_short data horizon oracle hne hwf hshort, htn]
      rfl
    · cases oracle with
      | none =>
        rw [forecast_model_exc data horizon hne hwf hlong, htn]
        rfl
      | some raw =>
        have hlenraw := hok raw rfl
        have hraw0 : raw = [] := by
          have hz : raw.length = 0 := by omega
          exact List.length_eq_zero.mp hz
        rw [forecast_model_tier data horizon raw hne hwf hlong, hraw0]
        simp [pySliceTo]
  have hrm : runMain data horizon oracle =
      failResponse .noPredictionsGenerated := by
    simp [runMain, hne, hfc]
  refine ⟨hfc, hrm, ?_, ?_, ?_⟩ <;> rw [hrm] <;> rfl

/-- C10, witness at the valid five-record input `d5` with horizon 0
and a raising neural tier. -/
theorem C10_witness :
    (d5 ≠ [] ∧ (∀ r ∈ d5, wfRecord r) ∧ (0 : Int) ≤ 0 ∧ OracleOK none 0) ∧
    (forecast d5 0 none = .ok [] ∧
      runMain d5 0 none = failResponse .noPredictionsGenerated ∧
      (runMain d5 0 none).success = false ∧
      (runMain d5 0 none).predictions = [] ∧
      (runMain d5 0 none).exitCode = 1) :=
  ⟨⟨by decide, by decide, le_refl 0, fun raw h => nomatch h⟩,
    C10_nonpositive_horizon d5 0 none (by decide) (by decide) (le_refl 0)
      (fun raw h => nomatch h)⟩
